import Mathlib

/-!
Shallow embedding of the provider-abstraction / RAG pipeline of
`src/agent/api.py` and `src/agent/data_model/response_data_model.py`.

The repository modules `agent.backend.LLMStrategy`,
`agent.data_model.request_data_model` and `agent.utils.*` are not present
under `src/`; where a definition stands in for one of them it carries a
doc comment starting `Modelled from the spec:` and is written from the
spec's words.  Everything else is transcribed from `src/agent/api.py`.

Numeric scores are modelled as rationals (the spec's score semantics are
about ordering and threshold comparison, not float rounding).
-/

namespace Agent

/-- The closed set of LLM providers.  `LLMProvider` is an enum of the
missing `request_data_model` module; the spec fixes the closed set
{cloud provider A (Aleph Alpha), cloud provider B (OpenAI), local
provider C (GPT4All)}, matching the three branches of `delete` in
`src/agent/api.py` lines 455-460. -/
inductive LLMProvider where
  | ALEPH_ALPHA
  | OPENAI
  | GPT4ALL
deriving DecidableEq, Repr

/-- The `Status` enum of `src/agent/data_model/response_data_model.py`
(values "success" and "failure"). -/
inductive Status where
  | SUCCESS
  | FAILURE
deriving DecidableEq, Repr

/-- Errors raised by the code.  `valueError` is Python's `ValueError`
with its message; `attributeError` is Python's `AttributeError` from
reading a missing attribute; `missingCredential` is the spec's
`MissingCredentialError` raised by the missing `validate_token`. -/
inductive ApiError where
  | valueError (msg : String)
  | attributeError (objKind attr : String)
  | missingCredential
deriving DecidableEq, Repr

/-- Observable effects of a request: credential resolution, strategy
construction, and calls out to the providers and the vector store.
Used to state fail-fast claims ("before any network call"). -/
inductive Effect where
  | validateToken
  | createTmpFolder
  | strategyConstruct (provider : LLMProvider)
  | embedDocumentsCall (provider : LLMProvider)
  | summarizeCall (provider : LLMProvider) (text : String)
  | searchCall (provider : LLMProvider) (query : String)
  | ragCall (provider : LLMProvider)
  | explainCall (provider : LLMProvider)
deriving DecidableEq, Repr

/-- A stored vector-store record: text plus `page`/`source` metadata
(the Embedding Record / Document Chunk of the spec's data model; the
vector itself is abstracted into the environment's scoring function). -/
structure Record where
  text : String
  page : Int
  source : String
deriving DecidableEq, Repr

/-- The vector store: collections addressed by name, each a list of
records in insertion order. -/
def Store := String → List Record

/-- `LLMBackend` of the missing `request_data_model` module, as used by
`api.py`: fields `llm_provider`, `token`, `collection_name`. -/
structure LLMBackend where
  llm_provider : LLMProvider
  token : Option String
  collection_name : String
deriving DecidableEq, Repr

/-- `SearchRequest` of the missing `request_data_model` module.
Modelled from the spec: a search request carries the query text, the
`top_k` bound on returned results, and its own LLM backend (`api.py`
reads `search.query` and, in the explain path,
`search.llm_backend.token` / `search.llm_backend.llm_provider`). -/
structure SearchRequest where
  query : Option String
  amount : Nat
  llm_backend : LLMBackend
deriving DecidableEq, Repr

/-- `Filtering` of the missing `request_data_model` module.  Modelled
from the spec: an optional metadata filter restricted to indexed fields
such as `source`. -/
structure Filtering where
  source : Option String
deriving DecidableEq, Repr

/-- `RAGRequest` of the missing `request_data_model` module, as used by
`api.py`: a search request plus the prior conversation `history`
(`api.py` reads `rag.search.query` and `rag.history`). -/
structure RAGRequest where
  search : SearchRequest
  history : List String
deriving DecidableEq, Repr

/-- `ExplainQARequest` of the missing `request_data_model` module, as
used by `api.py`: a RAG request plus the attribution threshold
(`api.py` reads `explain_request.rag_request.search.query` and
`explain_request.explain_threshold`). -/
structure ExplainQARequest where
  rag_request : RAGRequest
  explain_threshold : ℚ
deriving DecidableEq, Repr

/-- An uploaded file as the endpoints see it: an optional filename
(Python's `UploadFile.filename` may be `None`) and its content. -/
structure UploadFile where
  filename : Option String
  content : String
deriving DecidableEq, Repr

/-- `EmbeddTextRequest` of the missing `request_data_model` module, as
used by `api.py`: fields `text`, `file_name`, `seperator` (sic). -/
structure EmbeddTextRequest where
  text : String
  file_name : String
  seperator : String
deriving DecidableEq, Repr

/-- `EmbeddTextFilesRequest` of the missing `request_data_model`
module, as used by `api.py`: fields `files`, `seperator` (sic). -/
structure EmbeddTextFilesRequest where
  files : List UploadFile
  seperator : String
deriving DecidableEq, Repr

/-- `SearchResponse` of `response_data_model.py`: text, page, source and
similarity score. -/
structure SearchResponse where
  text : String
  page : Int
  source : String
  score : ℚ
deriving DecidableEq, Repr

/-- `EmbeddingResponse` of `response_data_model.py`. -/
structure EmbeddingResponse where
  status : Status
  files : List String
deriving DecidableEq, Repr

/-- `QAResponse` of `response_data_model.py`. -/
structure QAResponse where
  answer : String
  prompt : String
  meta_data : Option (List (String × String))
deriving DecidableEq, Repr

/-- `ExplainQAResponse` of `response_data_model.py`. -/
structure ExplainQAResponse where
  answer : String
  meta_data : Option (List (String × String))
  explanation : String
  text : String
  score : ℚ
deriving DecidableEq, Repr

/-- The process environment: the two API keys loaded from the
environment at startup (`api.py` lines 70-71), the durable vector
store, whether `create_tmp_folder` yields a usable directory, the
provider-dependent scoring of a record against a query, and the
provider completion and summarization models. -/
structure Env where
  aleph_alpha_key : Option String
  openai_key : Option String
  store : Store
  tmp_dir_ok : Bool
  score : String → Record → ℚ
  completer : String → String
  summarizer : String → String
  attribution : String → String → ℚ

/-! ## Spec-modelled collaborators

`agent.utils.utility`, `agent.backend.LLMStrategy` and the vector
database client are not under `src/`; the following definitions model
them from the spec (§4.1, §4.2, §4.3, §6, §7). -/

/-- Keep an optional credential only if it is present and non-empty
(the spec requires credentials for cloud providers to be non-empty). -/
def nonempty_opt : Option String → Option String
  | some t => if t = "" then none else some t
  | none => none

/-- Modelled from the spec: credential resolution (§4.1, §6) — the
token is taken from the explicit value, then from the configured
fallback, else `MissingCredentialError`. -/
def resolve_credential (explicit fallback : Option String) : Except ApiError String :=
  match nonempty_opt explicit with
  | some t => Except.ok t
  | none =>
    match nonempty_opt fallback with
    | some t => Except.ok t
    | none => Except.error ApiError.missingCredential

/-- Modelled from the spec: `validate_token` of the missing
`agent.utils.utility` — resolves a credential for the request's
provider; the credential is required for the cloud providers (Aleph
Alpha, OpenAI) and optional/ignored for the local provider (GPT4All). -/
def validate_token (token : Option String) (provider : LLMProvider)
    (aleph_alpha_key openai_key : Option String) : Except ApiError String :=
  match provider with
  | LLMProvider.ALEPH_ALPHA => resolve_credential token aleph_alpha_key
  | LLMProvider.OPENAI => resolve_credential token openai_key
  | LLMProvider.GPT4ALL => Except.ok (token.getD "")

/-- Modelled from the spec: `combine_text_from_list` of the missing
`agent.utils.utility` — combines the history texts into one string. -/
def combine_text_from_list (texts : List String) : String :=
  String.intercalate "\n" texts

/-- The strategy handle returned by the missing
`LLMStrategyFactory.get_strategy`: it is bound to one provider, one
token and one collection.  Every service operation in this file is a
total function over a handle, so any constructed handle exposes the
full operation set. -/
structure ProviderHandle where
  provider : LLMProvider
  token : String
  collection_name : String
deriving DecidableEq, Repr

/-- Modelled from the spec: `LLMStrategyFactory.get_strategy` of the
missing `agent.backend.LLMStrategy` — constructs the strategy for the
given provider, token and collection (§4.1). -/
def get_strategy (strategy_type : LLMProvider) (token collection_name : String) : ProviderHandle :=
  { provider := strategy_type, token := token, collection_name := collection_name }

/-- Modelled from the spec: the provider identifiers of the closed
supported set, as they appear as collection names in
`src/agent/api.py` lines 455-460. -/
def supported_provider_ids : List String :=
  ["aleph-alpha", "openai", "gpt4all"]

/-- Modelled from the spec: parsing a raw provider identifier into the
closed enum; any identifier outside the supported set is rejected. -/
def parse_provider (s : String) : Option LLMProvider :=
  if s = "aleph-alpha" then some LLMProvider.ALEPH_ALPHA
  else if s = "openai" then some LLMProvider.OPENAI
  else if s = "gpt4all" then some LLMProvider.GPT4ALL
  else none

/-- Modelled from the spec: the Provider Strategy Selector
`select(provider_id, credential, collection_name)` (§4.1) — fails with
an unsupported-provider error if `provider_id` is unrecognized,
otherwise returns the handle for the parsed provider. -/
def select (provider_id : String) (token collection_name : String) :
    Except ApiError ProviderHandle :=
  match parse_provider provider_id with
  | some p => Except.ok (get_strategy p token collection_name)
  | none => Except.error (ApiError.valueError ("Unsupported LLM provider: " ++ provider_id))

/-- One exact-match metadata condition of a qdrant `Filter`, as
constructed by `delete` in `src/agent/api.py` lines 470-477
(`models.FieldCondition` with `MatchValue` on `metadata.page` or
`metadata.source`). -/
inductive FieldCondition where
  | pageEq (v : Int)
  | sourceEq (v : String)
deriving DecidableEq, Repr

/-- A qdrant `Filter` whose `must` list is a conjunction of field
conditions. -/
structure QFilter where
  must : List FieldCondition
deriving DecidableEq, Repr

/-- Whether a record satisfies one exact-match condition. -/
def matches_condition (r : Record) : FieldCondition → Bool
  | FieldCondition.pageEq v => r.page = v
  | FieldCondition.sourceEq v => r.source = v

/-- Whether a record satisfies every condition of the `must` list
(conjunction). -/
def matches_filter (r : Record) (f : QFilter) : Bool :=
  f.must.all (matches_condition r)

/-- Modelled from the spec: the vector database's metadata-keyed delete
(§4.2, §6) — removes from the named collection every record matching
the filter, leaves other collections untouched, and reports the count
of deleted records (zero is valid, not an error). -/
def qdrant_delete (st : Store) (collection : String) (f : QFilter) : Nat × Store :=
  (((st collection).filter (fun r => matches_filter r f)).length,
   fun c => if c = collection then (st c).filter (fun r => !(matches_filter r f)) else st c)

/-- Whether a record passes the request's metadata filter (filter keys
restricted to indexed fields such as `source`, §4.3 item 2). -/
def matches_filtering (f : Filtering) (r : Record) : Bool :=
  match f.source with
  | none => true
  | some s => r.source = s

/-- Modelled from the spec: Vector Store Gateway `search` (§4.2) —
scores the collection's records against the query, keeps those passing
the metadata filter and above the implicit zero-relevance floor,
orders them by descending score with ties broken by insertion order
(insertion sort is stable), and returns at most `top_k`. -/
def store_search (env : Env) (collection : String) (query : String) (top_k : Nat)
    (f : Filtering) : List (Record × ℚ) :=
  let scored := ((env.store collection).filter (matches_filtering f)).map
    (fun r => (r, env.score query r))
  let relevant := scored.filter (fun rs => decide (0 < rs.2))
  (relevant.insertionSort (fun a b => b.2 ≤ a.2)).take top_k

/-- Modelled from the spec: `LLMContext.search` (§4.3 item 2) — embeds
the query with the handle's provider and runs the gateway search on
the handle's collection.  The spec's `search` assumes a query text;
an absent query is passed on as the empty string. -/
def service_search (env : Env) (h : ProviderHandle) (s : SearchRequest) (f : Filtering) :
    List (Record × ℚ) :=
  store_search env h.collection_name (s.query.getD "") s.amount f

/-- The fixed "summarize" instruction template (§4.3 item 3). -/
def summarize_template : String :=
  "Summarize the following conversation:\n"

/-- Modelled from the spec: `LLMContext.summarize_text` — a single
completion call on the fixed summarize template, returning the
condensed context string (§4.3 item 3). -/
def service_summarize (env : Env) (text : String) : String :=
  env.summarizer (summarize_template ++ text)

/-- The fixed RAG instruction template (§4.3 item 3). -/
def rag_template : String :=
  "Answer the question based on the following context:\n"

/-- Modelled from the spec: prompt assembly (§4.3 item 3) — the fixed
instruction template, then the retrieved chunks' text in search-result
order, then the history string the backend was given. -/
def assemble_prompt (docs : List (Record × ℚ)) (history : String) : String :=
  rag_template ++ String.intercalate "\n" (docs.map (fun d => d.1.text)) ++ "\n" ++ history

/-- Modelled from the spec: `LLMContext.rag` (§4.3 item 3) — runs
`search`, assembles the prompt from the retrieved chunks and the
history carried by the request it receives, and calls the Completion
Provider with that prompt; returns (answer, prompt, meta_data). -/
def service_rag (env : Env) (h : ProviderHandle) (rag : RAGRequest) (f : Filtering) :
    String × String × Option (List (String × String)) :=
  let docs := service_search env h rag.search f
  let prompt := assemble_prompt docs (combine_text_from_list rag.history)
  (env.completer prompt, prompt, none)

/-- Modelled from the spec: the attribution step of `explain_qa`
(§4.3 item 4) — each retrieved span is scored against the query and
spans scoring below `explain_threshold` are excluded from the returned
explanation (at-or-above is included, boundary inclusive). -/
def explain_spans (env : Env) (query : String) (explain_threshold : ℚ)
    (docs : List (Record × ℚ)) : List (String × ℚ) :=
  (docs.map (fun d => (d.1.text, env.attribution query d.1.text))).filter
    (fun sp => decide (explain_threshold ≤ sp.2))

/-- Modelled from the spec: `LLMContext.explain_qa` (§4.3 item 4) —
returns (explanation, score, text, answer, meta_data): the explanation
is built from the spans at or above the threshold, the reported span
and score are the first surviving span, and the answer is a completion
over the retrieved context. -/
def explain_qa (env : Env) (query : String) (explain_threshold : ℚ)
    (document : List (Record × ℚ)) (_aleph_alpha_token : String) :
    String × ℚ × String × String × Option (List (String × String)) :=
  let spans := explain_spans env query explain_threshold document
  let explanation := String.intercalate "\n" (spans.map Prod.fst)
  let best := spans.headD ("", 0)
  (explanation, best.2, best.1, env.completer (assemble_prompt document query), none)

/-! ## Endpoint transcriptions from `src/agent/api.py` -/

/-- The `if/elif` chain of `delete` (`src/agent/api.py` lines 455-460)
mapping the provider to its collection name.  The trailing `else`
branch raising `ValueError("Unsupported LLM provider: ...")` (lines
461-463) is unreachable for values of the closed enum. -/
def provider_collection : LLMProvider → String
  | LLMProvider.ALEPH_ALPHA => "aleph-alpha"
  | LLMProvider.OPENAI => "openai"
  | LLMProvider.GPT4ALL => "gpt4all"

/-- `delete` (`src/agent/api.py` lines 436-483): picks the provider's
collection, then deletes via the vector database with a `must` filter
conjoining exact matches on `metadata.page` and `metadata.source`;
returns the deletion result (count) and the updated store. -/
def delete (st : Store) (page : Int) (source : String) (llm_provider : LLMProvider) :
    Nat × Store :=
  let collection := provider_collection llm_provider
  qdrant_delete st collection
    { must := [FieldCondition.pageEq page, FieldCondition.sourceEq source] }

/-- The `delete` route as callable with the provider omitted: the
Python signature defaults `llm_provider` to `LLMProvider.OPENAI`
(`src/agent/api.py` line 440). -/
def delete_route (st : Store) (page : Int) (source : String)
    (llm_provider? : Option LLMProvider) : Nat × Store :=
  delete st page source (llm_provider?.getD LLMProvider.OPENAI)

/-- The two response shapes of the `search` endpoint: the
`JSONResponse(content={"message": "No documents found."})` branch
(`src/agent/api.py` line 264) and the list of `SearchResponse`. -/
inductive SearchOut where
  | jsonMessage (message : String)
  | results (rs : List SearchResponse)
deriving DecidableEq, Repr

/-- `search` (`src/agent/api.py` lines 237-276): validates the token,
constructs the strategy for the requested provider, runs the service
search; if no docs were found returns the JSON message response,
otherwise maps each `(document, score)` pair to a `SearchResponse`
carrying text, page, source and score, in order. -/
def search_route (env : Env) (search : SearchRequest) (llm_backend : LLMBackend)
    (filtering : Filtering) : Except ApiError SearchOut × List Effect :=
  match validate_token llm_backend.token llm_backend.llm_provider
      env.aleph_alpha_key env.openai_key with
  | Except.error e => (Except.error e, [Effect.validateToken])
  | Except.ok token =>
    let service := get_strategy llm_backend.llm_provider token llm_backend.collection_name
    let docs := service_search env service search filtering
    let effs := [Effect.validateToken,
      Effect.strategyConstruct llm_backend.llm_provider,
      Effect.searchCall service.provider (search.query.getD "")]
    if docs.isEmpty then
      (Except.ok (SearchOut.jsonMessage "No documents found."), effs)
    else
      (Except.ok (SearchOut.results (docs.map
        (fun d => { text := d.1.text, page := d.1.page, source := d.1.source, score := d.2 }))),
       effs)

/-- `question_answer` (`src/agent/api.py` lines 279-315): raises if the
query is absent, before any credential resolution or network call;
otherwise validates the token, constructs the strategy, and — if the
history is non-empty — combines the history and calls
`summarize_text`, whose return value the source discards (line 311
binds it to nothing); finally calls `service.rag` with the original
request and returns its (answer, prompt, meta_data). -/
def question_answer (env : Env) (rag : RAGRequest) (llm_backend : LLMBackend)
    (filtering : Filtering) : Except ApiError QAResponse × List Effect :=
  match rag.search.query with
  | none => (Except.error (ApiError.valueError "Please provide a Question."), [])
  | some _q =>
    match validate_token llm_backend.token llm_backend.llm_provider
        env.aleph_alpha_key env.openai_key with
    | Except.error e => (Except.error e, [Effect.validateToken])
    | Except.ok token =>
      let service := get_strategy llm_backend.llm_provider token llm_backend.collection_name
      let effs0 := [Effect.validateToken, Effect.strategyConstruct llm_backend.llm_provider]
      let effs1 :=
        if rag.history.isEmpty then effs0
        else
          let text := combine_text_from_list rag.history
          let _discarded_summary := service_summarize env text
          effs0 ++ [Effect.summarizeCall service.provider text]
      let result := service_rag env service rag filtering
      (Except.ok { answer := result.1, prompt := result.2.1, meta_data := result.2.2 },
       effs1 ++ [Effect.ragCall service.provider])

/-- The file-saving loop of `post_embedd_documents` (`src/agent/api.py`
lines 142-156): for each file, fail if the temporary folder is
unusable, fail if the filename is `None`, else collect the name. -/
def save_files_documents (tmp_ok : Bool) : List UploadFile → Except ApiError (List String)
  | [] => Except.ok []
  | f :: fs =>
    if tmp_ok = false then
      Except.error (ApiError.valueError "Please provide a temporary folder to save the files.")
    else
      match f.filename with
      | none => Except.error (ApiError.valueError "Please provide a file to save.")
      | some n => (save_files_documents tmp_ok fs).map (fun ns => n :: ns)

/-- `post_embedd_documents` (`src/agent/api.py` lines 120-160):
validates the token (line 135 passes the whole `llm_backend` object as
`validate_token`'s `llm_backend` argument; `validate_token` is
provider-scoped, so the provider is drawn from it here), creates the
temporary folder, constructs the strategy — line 138 passes the fixed
`LLMProvider.ALEPH_ALPHA` as `strategy_type`, not
`llm_backend.llm_provider` — saves the files, embeds via the
constructed strategy, and returns a success response with the
collected file names. -/
def post_embedd_documents (env : Env) (llm_backend : LLMBackend)
    (files : List UploadFile) : Except ApiError EmbeddingResponse × List Effect :=
  match validate_token llm_backend.token llm_backend.llm_provider
      env.aleph_alpha_key env.openai_key with
  | Except.error e => (Except.error e, [Effect.validateToken])
  | Except.ok token =>
    let service := get_strategy LLMProvider.ALEPH_ALPHA token llm_backend.collection_name
    let effs := [Effect.validateToken, Effect.createTmpFolder,
      Effect.strategyConstruct LLMProvider.ALEPH_ALPHA]
    match save_files_documents env.tmp_dir_ok files with
    | Except.error e => (Except.error e, effs)
    | Except.ok file_names =>
      (Except.ok { status := Status.SUCCESS, files := file_names },
       effs ++ [Effect.embedDocumentsCall service.provider])

/-- `embedd_text` (`src/agent/api.py` lines 163-187): validates the
token, constructs the strategy for the requested provider, embeds the
text, and returns a success response listing the single file name. -/
def embedd_text_route (env : Env) (embedding : EmbeddTextRequest)
    (llm_backend : LLMBackend) : Except ApiError EmbeddingResponse × List Effect :=
  match validate_token llm_backend.token llm_backend.llm_provider
      env.aleph_alpha_key env.openai_key with
  | Except.error e => (Except.error e, [Effect.validateToken])
  | Except.ok token =>
    let service := get_strategy llm_backend.llm_provider token llm_backend.collection_name
    (Except.ok { status := Status.SUCCESS, files := [embedding.file_name] },
     [Effect.validateToken, Effect.strategyConstruct llm_backend.llm_provider,
      Effect.embedDocumentsCall service.provider])

/-- The file-saving loop of `embedd_text_files` (`src/agent/api.py`
lines 212-226): for each file, fail if the filename is `None`, then
fail if the temporary folder is unusable, else collect the name. -/
def save_files_textfiles (tmp_ok : Bool) : List UploadFile → Except ApiError (List String)
  | [] => Except.ok []
  | f :: fs =>
    match f.filename with
    | none => Except.error (ApiError.valueError "File does not have a valid name.")
    | some n =>
      if tmp_ok = false then
        Except.error (ApiError.valueError "Please provide a temporary folder to save the files.")
      else (save_files_textfiles tmp_ok fs).map (fun ns => n :: ns)

/-- `embedd_text_files` (`src/agent/api.py` lines 190-234): creates the
temporary folder and saves the files first, then validates the token,
constructs the strategy for the requested provider, embeds, and
returns a success response with the collected file names. -/
def embedd_text_files_route (env : Env) (embedding : EmbeddTextFilesRequest)
    (llm_backend : LLMBackend) : Except ApiError EmbeddingResponse × List Effect :=
  let effs := [Effect.createTmpFolder]
  match save_files_textfiles env.tmp_dir_ok embedding.files with
  | Except.error e => (Except.error e, effs)
  | Except.ok file_names =>
    match validate_token llm_backend.token llm_backend.llm_provider
        env.aleph_alpha_key env.openai_key with
    | Except.error e => (Except.error e, effs ++ [Effect.validateToken])
    | Except.ok token =>
      let service := get_strategy llm_backend.llm_provider token llm_backend.collection_name
      (Except.ok { status := Status.SUCCESS, files := file_names },
       effs ++ [Effect.validateToken,
         Effect.strategyConstruct llm_backend.llm_provider,
         Effect.embedDocumentsCall service.provider])

/-- Attributes assigned to module-level function objects of
`src/agent/api.py`: a `def` creates a plain function object and the
module never assigns any attribute to one, so the table is empty — in
particular the route function `search` (line 238) has no attribute
`llm_backend`. -/
def function_attributes (_fn : String) : List (String × String) := []

/-- Python attribute lookup on a module-level function object:
`none` models the raised `AttributeError`. -/
def function_getattr (fn attr : String) : Option String :=
  (function_attributes fn).lookup attr

/-- `explain_question_answer` (`src/agent/api.py` lines 318-365):
raises if the query is absent; validates the nested request's token;
then line 352 constructs the strategy with
`token=search.llm_backend.token`, where `search` resolves to the
module-level route function (line 238), not to request data — reading
`llm_backend` off a function object raises `AttributeError` there, so
the continuation (service search, `explain_qa`) is only reached if the
attribute lookup were to succeed. -/
def explain_question_answer (env : Env) (explain_request : ExplainQARequest)
    (llm_backend : LLMBackend) : Except ApiError ExplainQAResponse × List Effect :=
  match explain_request.rag_request.search.query with
  | none => (Except.error (ApiError.valueError "Please provide a Question."), [])
  | some q =>
    match validate_token explain_request.rag_request.search.llm_backend.token
        explain_request.rag_request.search.llm_backend.llm_provider
        env.aleph_alpha_key env.openai_key with
    | Except.error e => (Except.error e, [Effect.validateToken])
    | Except.ok _validated =>
      match function_getattr "search" "llm_backend" with
      | none =>
        (Except.error (ApiError.attributeError "function search" "llm_backend"),
         [Effect.validateToken])
      | some tok =>
        let service := get_strategy llm_backend.llm_provider tok llm_backend.collection_name
        let documents := service_search env service explain_request.rag_request.search
          { source := none }
        let (explanation, score, textSpan, answer, meta_data) :=
          explain_qa env q explain_request.explain_threshold documents
            (explain_request.rag_request.search.llm_backend.token.getD "")
        -- ExplainQAResponse fields: answer, meta_data, explanation, text, score
        (Except.ok ⟨answer, meta_data, explanation, textSpan, score⟩,
         [Effect.validateToken, Effect.strategyConstruct llm_backend.llm_provider,
          Effect.searchCall service.provider (explain_request.rag_request.search.query.getD ""),
          Effect.explainCall service.provider])

/-! ## Concrete fixtures -/

/-- A stored record on page 1 of `doc.pdf`. -/
def recAlpha : Record := { text := "alpha", page := 1, source := "doc.pdf" }

/-- A stored record on page 3 of `doc.pdf`. -/
def recBeta : Record := { text := "beta", page := 3, source := "doc.pdf" }

/-- A stored record on page 3 of `other.pdf`. -/
def recGamma : Record := { text := "gamma", page := 3, source := "other.pdf" }

/-- A store whose `openai` collection holds three records. -/
def storeT : Store := fun c => if c = "openai" then [recAlpha, recBeta, recGamma] else []

/-- A concrete environment with both API keys configured. -/
def envT : Env :=
  { aleph_alpha_key := some "AAKEY"
    openai_key := some "OAKEY"
    store := storeT
    tmp_dir_ok := true
    score := fun _q r => if r.text = "alpha" then 2 else 1
    completer := fun _p => "ANSWER"
    summarizer := fun _p => "SUMMARY"
    attribution := fun _q sp => if sp = "alpha" then mkRat 1 2 else mkRat 49 100 }

/-- `envT` with an empty vector store. -/
def envEmpty : Env := { envT with store := fun _ => [] }

/-- `envT` with a summarizer returning a recognizable marker string. -/
def envMarked : Env := { envT with summarizer := fun _ => "XSUMMARYX" }

/-- A backend requesting the OpenAI provider with an explicit token. -/
def backendT : LLMBackend :=
  { llm_provider := LLMProvider.OPENAI, token := some "tok", collection_name := "openai" }

/-- A search request with a present query. -/
def searchReqT : SearchRequest :=
  { query := some "sky color", amount := 10, llm_backend := backendT }

/-- An empty metadata filter. -/
def filteringT : Filtering := { source := none }

/-- A RAG request with a present query and a non-empty history. -/
def ragT : RAGRequest := { search := searchReqT, history := ["hello", "world"] }

/-- A one-element upload list with a present filename. -/
def filesT : List UploadFile := [{ filename := some "doc.pdf", content := "content" }]

/-! ## Claim theorems -/

/-- C1: the claimed single-binding invariant fails in
`post_embedd_documents`: for a request whose backend asks for the
OpenAI provider, the strategy is constructed — and the embedding
performed — with the fixed Aleph Alpha provider (`src/agent/api.py`
line 138 passes `LLMProvider.ALEPH_ALPHA` as `strategy_type` instead
of `llm_backend.llm_provider`). -/
theorem C1_embedding_strategy_fixed_aleph_alpha :
    backendT.llm_provider = LLMProvider.OPENAI ∧
    Effect.strategyConstruct LLMProvider.ALEPH_ALPHA ∈
      (post_embedd_documents envT backendT filesT).2 ∧
    Effect.embedDocumentsCall LLMProvider.ALEPH_ALPHA ∈
      (post_embedd_documents envT backendT filesT).2 ∧
    Effect.strategyConstruct LLMProvider.OPENAI ∉
      (post_embedd_documents envT backendT filesT).2 ∧
    Effect.embedDocumentsCall LLMProvider.OPENAI ∉
      (post_embedd_documents envT backendT filesT).2 := by
  decide

/-- C5: `delete` removes from the selected provider's collection
exactly the records whose metadata matches both the given page and the
given source (a conjunction of two exact-match conditions), leaves
every other collection unchanged, and reports the count of deleted
records, with zero being the no-match (non-error) outcome. -/
theorem C5_delete_removes_exact_matches (st : Store) (page : Int) (source : String)
    (p : LLMProvider) :
    (delete st page source p).2 (provider_collection p) =
      (st (provider_collection p)).filter
        (fun r => !(decide (r.page = page) && decide (r.source = source))) ∧
    (∀ c, c ≠ provider_collection p → (delete st page source p).2 c = st c) ∧
    (delete st page source p).1 =
      ((st (provider_collection p)).filter
        (fun r => decide (r.page = page) && decide (r.source = source))).length ∧
    ((delete st page source p).1 = 0 ↔
      ∀ r ∈ st (provider_collection p), ¬(r.page = page ∧ r.source = source)) := by
  have hm : ∀ r : Record,
      matches_filter r { must := [FieldCondition.pageEq page, FieldCondition.sourceEq source] } =
        (decide (r.page = page) && decide (r.source = source)) := by
    intro r
    simp [matches_filter, matches_condition]
  refine ⟨?_, ?_, ?_, ?_⟩
  · simp [delete, qdrant_delete, hm]
  · intro c hc
    simp only [delete, qdrant_delete]
    simp [hc]
  · simp only [delete, qdrant_delete, hm]
  · simp only [delete, qdrant_delete, hm]
    rw [List.length_eq_zero, List.filter_eq_nil_iff]
    constructor
    · intro h r hr hmatch
      have := h r hr
      simp [hmatch.1, hmatch.2] at this
    · intro h r hr
      have := h r hr
      simp only [Bool.and_eq_true, decide_eq_true_eq]
      intro hcontra
      exact this hcontra

/-- C5 witness: deleting page 3 of `doc.pdf` from the OpenAI
collection of `storeT` deletes exactly one record and leaves the
`aleph-alpha` collection unchanged. -/
theorem C5_delete_removes_exact_matches_witness :
    (delete storeT 3 "doc.pdf" LLMProvider.OPENAI).2 "aleph-alpha" = storeT "aleph-alpha" ∧
    (delete storeT 3 "doc.pdf" LLMProvider.OPENAI).1 = 1 := by
  constructor
  · exact (C5_delete_removes_exact_matches storeT 3 "doc.pdf" LLMProvider.OPENAI).2.1
      "aleph-alpha" (by decide)
  · rw [(C5_delete_removes_exact_matches storeT 3 "doc.pdf" LLMProvider.OPENAI).2.2.1]
    decide

/-- C6: selecting a provider by identifier succeeds exactly on the
closed supported set {"aleph-alpha", "openai", "gpt4all"}, yielding
the handle for that provider, and fails with the unsupported-provider
error on every other identifier. -/
theorem C6_select_closed_provider_set (provider_id token collection : String) :
    (provider_id ∈ supported_provider_ids →
      ∃ p, parse_provider provider_id = some p ∧
        select provider_id token collection = Except.ok (get_strategy p token collection)) ∧
    (provider_id ∉ supported_provider_ids →
      select provider_id token collection =
        Except.error (ApiError.valueError ("Unsupported LLM provider: " ++ provider_id))) := by
  constructor
  · intro hmem
    simp only [supported_provider_ids, List.mem_cons, List.mem_singleton,
      List.not_mem_nil, or_false] at hmem
    rcases hmem with h | h | h <;> subst h
    · exact ⟨LLMProvider.ALEPH_ALPHA, by simp [parse_provider], by simp [select, parse_provider]⟩
    · exact ⟨LLMProvider.OPENAI, by simp [parse_provider], by simp [select, parse_provider]⟩
    · exact ⟨LLMProvider.GPT4ALL, by simp [parse_provider], by simp [select, parse_provider]⟩
  · intro hmem
    simp only [supported_provider_ids, List.mem_cons, List.mem_singleton,
      List.not_mem_nil, or_false, not_or] at hmem
    obtain ⟨h1, h2, h3⟩ := hmem
    simp [select, parse_provider, h1, h2, h3]

/-- C6 witness: `"openai"` parses and selects successfully, while
`"mistral"` fails with the unsupported-provider error. -/
theorem C6_select_closed_provider_set_witness :
    (∃ p, parse_provider "openai" = some p ∧
      select "openai" "tok" "col" = Except.ok (get_strategy p "tok" "col")) ∧
    select "mistral" "tok" "col" =
      Except.error (ApiError.valueError ("Unsupported LLM provider: " ++ "mistral")) :=
  ⟨(C6_select_closed_provider_set "openai" "tok" "col").1 (by decide),
   (C6_select_closed_provider_set "mistral" "tok" "col").2 (by decide)⟩

/-- C9: a `delete` request that omits the provider defaults to the
OpenAI provider — so only the `"openai"` collection is touched — and
the provider-to-collection mapping is the fixed function
{ALEPH_ALPHA ↦ "aleph-alpha", OPENAI ↦ "openai", GPT4ALL ↦ "gpt4all"}. -/
theorem C9_delete_defaults_to_openai (st : Store) (page : Int) (source : String) :
    delete_route st page source none = delete st page source LLMProvider.OPENAI ∧
    (∀ c, c ≠ "openai" → (delete_route st page source none).2 c = st c) ∧
    provider_collection LLMProvider.ALEPH_ALPHA = "aleph-alpha" ∧
    provider_collection LLMProvider.OPENAI = "openai" ∧
    provider_collection LLMProvider.GPT4ALL = "gpt4all" := by
  refine ⟨rfl, ?_, rfl, rfl, rfl⟩
  intro c hc
  simp only [delete_route, Option.getD, delete, qdrant_delete, provider_collection]
  simp [hc]

/-- C9 witness: with the provider omitted, deleting page 3 of
`doc.pdf` from `storeT` equals a delete under the OpenAI provider and
leaves the `gpt4all` collection unchanged. -/
theorem C9_delete_defaults_to_openai_witness :
    delete_route storeT 3 "doc.pdf" none = delete storeT 3 "doc.pdf" LLMProvider.OPENAI ∧
    (delete_route storeT 3 "doc.pdf" none).2 "gpt4all" = storeT "gpt4all" :=
  ⟨(C9_delete_defaults_to_openai storeT 3 "doc.pdf").1,
   (C9_delete_defaults_to_openai storeT 3 "doc.pdf").2.1 "gpt4all" (by decide)⟩

/-- The only error `resolve_credential` can produce is the
missing-credential error. -/
theorem resolve_credential_error_eq (explicit fallback : Option String) (e : ApiError)
    (h : resolve_credential explicit fallback = Except.error e) :
    e = ApiError.missingCredential := by
  unfold resolve_credential at h
  cases hx : nonempty_opt explicit with
  | some t => rw [hx] at h; exact absurd h (by simp)
  | none =>
    rw [hx] at h
    cases hy : nonempty_opt fallback with
    | some t => rw [hy] at h; exact absurd h (by simp)
    | none => rw [hy] at h; exact ((Except.error.injEq _ _).mp h).symm

/-- The only error `validate_token` can produce is the
missing-credential error. -/
theorem validate_token_error_eq (token : Option String) (p : LLMProvider)
    (ak ok : Option String) (e : ApiError)
    (h : validate_token token p ak ok = Except.error e) :
    e = ApiError.missingCredential := by
  cases p with
  | ALEPH_ALPHA => exact resolve_credential_error_eq token ak e h
  | OPENAI => exact resolve_credential_error_eq token ok e h
  | GPT4ALL => exact absurd h (by simp [validate_token])

/-- C2: an answer request with an absent query fails with the
missing-query error before the token is resolved and before any
network call (the effect trace is empty); a request with a present
query never produces the missing-query error. -/
theorem C2_missing_query_fail_fast (env : Env) (rag : RAGRequest) (b : LLMBackend)
    (f : Filtering) :
    (rag.search.query = none →
      question_answer env rag b f =
        (Except.error (ApiError.valueError "Please provide a Question."), [])) ∧
    (∀ q, rag.search.query = some q →
      (question_answer env rag b f).1 ≠
        Except.error (ApiError.valueError "Please provide a Question.")) := by
  constructor
  · intro h
    unfold question_answer
    rw [h]
  · intro q hq
    unfold question_answer
    rw [hq]
    cases hv : validate_token b.token b.llm_provider env.aleph_alpha_key env.openai_key with
    | error e =>
      have he := validate_token_error_eq b.token b.llm_provider
        env.aleph_alpha_key env.openai_key e hv
      subst he
      simp
    | ok tok => simp

/-- A RAG request with an absent query. -/
def ragNoQuery : RAGRequest :=
  { search := { query := none, amount := 10, llm_backend := backendT }, history := [] }

/-- C2 witness: the missing-query request fails fast with an empty
effect trace; the present-query request does not produce the
missing-query error. -/
theorem C2_missing_query_fail_fast_witness :
    question_answer envT ragNoQuery backendT filteringT =
      (Except.error (ApiError.valueError "Please provide a Question."), []) ∧
    (question_answer envT ragT backendT filteringT).1 ≠
      Except.error (ApiError.valueError "Please provide a Question.") :=
  ⟨(C2_missing_query_fail_fast envT ragNoQuery backendT filteringT).1 rfl,
   (C2_missing_query_fail_fast envT ragT backendT filteringT).2 "sky color" rfl⟩

/-- The prompt carried by a QA result; empty on error. -/
def prompt_of (r : Except ApiError QAResponse × List Effect) : String :=
  match r.1 with
  | Except.ok a => a.prompt
  | Except.error _ => ""

/-- The result of `question_answer` does not depend on the summarize
model: the value returned by `summarize_text` is discarded by
`src/agent/api.py` line 311, so changing the summarizer changes
nothing. -/
theorem question_answer_summarizer_irrelevant (env : Env) (g : String → String)
    (rag : RAGRequest) (b : LLMBackend) (f : Filtering) :
    question_answer { env with summarizer := g } rag b f = question_answer env rag b f := rfl

/-- The history string handed to prompt assembly is a suffix of the
assembled prompt. -/
theorem history_suffix_assemble_prompt (docs : List (Record × ℚ)) (h : String) :
    h.toList <:+ (assemble_prompt docs h).toList := by
  unfold assemble_prompt
  have hab : ∀ a b : String, (a ++ b).toList = a.toList ++ b.toList :=
    fun a b => String.data_append a b
  rw [hab]
  exact List.suffix_append _ _

/-- The accumulator and every pending element occur inside the result
of `String.intercalate.go`. -/
theorem intercalate_go_occurs (sep : String) (as : List String) (acc : String) :
    acc.toList <:+: (String.intercalate.go acc sep as).toList ∧
    ∀ s ∈ as, s.toList <:+: (String.intercalate.go acc sep as).toList := by
  induction as generalizing acc with
  | nil =>
    refine ⟨List.infix_rfl, ?_⟩
    intro s hs
    exact absurd hs (List.not_mem_nil s)
  | cons a as ih =>
    rw [show String.intercalate.go acc sep (a :: as) =
      String.intercalate.go (acc ++ sep ++ a) sep as from rfl]
    obtain ⟨hacc, hmem⟩ := ih (acc ++ sep ++ a)
    have htoList : (acc ++ sep ++ a).toList = acc.toList ++ sep.toList ++ a.toList := by
      rw [show (acc ++ sep ++ a).toList = (acc ++ sep).toList ++ a.toList from
            String.data_append _ _,
          show (acc ++ sep).toList = acc.toList ++ sep.toList from String.data_append _ _]
    constructor
    · have h1 : acc.toList <+: (acc ++ sep ++ a).toList := by
        rw [htoList, List.append_assoc]
        exact List.prefix_append _ _
      exact h1.isInfix.trans hacc
    · intro s hs
      rcases List.mem_cons.mp hs with h | h
      · subst h
        have h1 : s.toList <:+ (acc ++ sep ++ s).toList := by
          rw [htoList]
          exact List.suffix_append _ _
        exact h1.isInfix.trans hacc
      · exact hmem s h

/-- Every member of a list of strings occurs inside its
`sep`-intercalation. -/
theorem toList_infix_intercalate (sep : String) (l : List String) (s : String)
    (hs : s ∈ l) :
    s.toList <:+: (String.intercalate sep l).toList := by
  cases l with
  | nil => exact absurd hs (List.not_mem_nil s)
  | cons a as =>
    rw [show String.intercalate sep (a :: as) = String.intercalate.go a sep as from rfl]
    rcases List.mem_cons.mp hs with h | h
    · subst h
      exact (intercalate_go_occurs sep as s).1
    · exact (intercalate_go_occurs sep as a).2 s h

/-- Every retrieved chunk's text occurs inside the assembled prompt. -/
theorem chunk_infix_assemble_prompt (docs : List (Record × ℚ)) (h : String)
    (d : Record × ℚ) (hd : d ∈ docs) :
    d.1.text.toList <:+: (assemble_prompt docs h).toList := by
  unfold assemble_prompt
  have hmem : d.1.text ∈ docs.map (fun x => x.1.text) := List.mem_map.mpr ⟨d, hd, rfl⟩
  have hint := toList_infix_intercalate "\n" (docs.map (fun x => x.1.text)) _ hmem
  have hab : ∀ a b : String, (a ++ b).toList = a.toList ++ b.toList :=
    fun a b => String.data_append a b
  rw [hab, hab, hab, List.append_assoc]
  exact hint.trans (List.infix_append _ _ _)

set_option maxRecDepth 4096 in
/-- C3 counterexample: on a request with non-empty history the
summarize completion call is made, but its result is discarded: the
whole response is unchanged when the summarizer is replaced by one
returning the marker string `"XSUMMARYX"`, the two summaries differ,
and the marker does not occur in the returned prompt — so the
summarized history is not incorporated into the assembled prompt. -/
theorem C3_counterexample_summary_not_incorporated :
    ragT.history ≠ [] ∧
    Effect.summarizeCall LLMProvider.OPENAI (combine_text_from_list ragT.history) ∈
      (question_answer envMarked ragT backendT filteringT).2 ∧
    envMarked.summarizer (summarize_template ++ combine_text_from_list ragT.history) ≠
      envT.summarizer (summarize_template ++ combine_text_from_list ragT.history) ∧
    question_answer envMarked ragT backendT filteringT =
      question_answer envT ragT backendT filteringT ∧
    (question_answer envMarked ragT backendT filteringT).1.isOk = true ∧
    ¬ ("XSUMMARYX".toList <:+:
        (prompt_of (question_answer envMarked ragT backendT filteringT)).toList) := by
  refine ⟨by decide, by decide, by decide, rfl, by decide, by decide⟩

/-- C3 amended: for every answer request with a present query, a
resolvable token and a non-empty history, the summarize completion
call is made on the combined history, but its result is discarded: the
assembled prompt is exactly the prompt built from the retrieved
chunks' text in search-result order together with the raw
(unsummarized) combined history — every retrieved chunk's text and the
raw combined history occur inside it — and the entire response is
independent of the summarize model. -/
theorem C3_amended_summary_discarded_raw_history_in_prompt (env : Env) (rag : RAGRequest)
    (b : LLMBackend) (f : Filtering) (q tok : String)
    (hq : rag.search.query = some q) (hh : rag.history ≠ [])
    (hv : validate_token b.token b.llm_provider env.aleph_alpha_key env.openai_key =
      Except.ok tok) :
    Effect.summarizeCall b.llm_provider (combine_text_from_list rag.history) ∈
      (question_answer env rag b f).2 ∧
    prompt_of (question_answer env rag b f) =
      assemble_prompt
        (service_search env (get_strategy b.llm_provider tok b.collection_name) rag.search f)
        (combine_text_from_list rag.history) ∧
    (∀ d ∈ service_search env (get_strategy b.llm_provider tok b.collection_name) rag.search f,
      d.1.text.toList <:+: (prompt_of (question_answer env rag b f)).toList) ∧
    (combine_text_from_list rag.history).toList <:+:
      (prompt_of (question_answer env rag b f)).toList ∧
    ∀ g, question_answer { env with summarizer := g } rag b f =
      question_answer env rag b f := by
  have hne : rag.history.isEmpty = false := by
    cases hl : rag.history with
    | nil => exact absurd hl hh
    | cons a l => rfl
  have hprompt : prompt_of (question_answer env rag b f) =
      assemble_prompt
        (service_search env (get_strategy b.llm_provider tok b.collection_name) rag.search f)
        (combine_text_from_list rag.history) := by
    unfold question_answer prompt_of
    simp only [hq, hv, hne, Bool.false_eq_true, if_false]
    rfl
  refine ⟨?_, hprompt, ?_, ?_,
    fun g => question_answer_summarizer_irrelevant env g rag b f⟩
  · unfold question_answer
    simp only [hq, hv, hne, Bool.false_eq_true, if_false, List.mem_append, List.mem_cons]
    simp [get_strategy]
  · intro d hd
    rw [hprompt]
    exact chunk_infix_assemble_prompt _ _ d hd
  · rw [hprompt]
    exact (history_suffix_assemble_prompt _ _).isInfix

/-- C3 amended witness: on the concrete request with history
`["hello", "world"]` the summarize call appears in the trace, the
prompt is the one assembled from the retrieved chunks and the raw
combined history, every retrieved chunk's text and the raw history are
substrings of it, and replacing the summarizer changes nothing. -/
theorem C3_amended_witness :
    Effect.summarizeCall LLMProvider.OPENAI (combine_text_from_list ragT.history) ∈
      (question_answer envT ragT backendT filteringT).2 ∧
    prompt_of (question_answer envT ragT backendT filteringT) =
      assemble_prompt
        (service_search envT (get_strategy LLMProvider.OPENAI "tok" "openai")
          ragT.search filteringT)
        (combine_text_from_list ragT.history) ∧
    (∀ d ∈ service_search envT (get_strategy LLMProvider.OPENAI "tok" "openai")
        ragT.search filteringT,
      d.1.text.toList <:+:
        (prompt_of (question_answer envT ragT backendT filteringT)).toList) ∧
    (combine_text_from_list ragT.history).toList <:+:
      (prompt_of (question_answer envT ragT backendT filteringT)).toList ∧
    ∀ g, question_answer { envT with summarizer := g } ragT backendT filteringT =
      question_answer envT ragT backendT filteringT :=
  C3_amended_summary_discarded_raw_history_in_prompt envT ragT backendT filteringT
    "sky color" "tok" rfl (by decide) rfl

/-- C8: the explain endpoint can never return a successful explanation
response: whenever the query is present and the token validates, the
strategy construction at `src/agent/api.py` line 352 reads
`llm_backend` off the module-level `search` function and raises
`AttributeError` before the service search runs; no search call ever
appears in the effect trace. -/
theorem C8_explain_endpoint_always_raises (env : Env) (er : ExplainQARequest)
    (b : LLMBackend) :
    (∀ resp, (explain_question_answer env er b).1 ≠ Except.ok resp) ∧
    (∀ q tok, er.rag_request.search.query = some q →
      validate_token er.rag_request.search.llm_backend.token
          er.rag_request.search.llm_backend.llm_provider env.aleph_alpha_key env.openai_key =
        Except.ok tok →
      explain_question_answer env er b =
        (Except.error (ApiError.attributeError "function search" "llm_backend"),
         [Effect.validateToken])) ∧
    (∀ p q2, Effect.searchCall p q2 ∉ (explain_question_answer env er b).2) := by
  have hshape :
      explain_question_answer env er b =
        (Except.error (ApiError.valueError "Please provide a Question."), ([] : List Effect)) ∨
      ∃ e : ApiError, explain_question_answer env er b =
        (Except.error e, [Effect.validateToken]) := by
    unfold explain_question_answer
    cases hq : er.rag_request.search.query with
    | none => exact Or.inl rfl
    | some q =>
      cases hv : validate_token er.rag_request.search.llm_backend.token
          er.rag_request.search.llm_backend.llm_provider env.aleph_alpha_key env.openai_key with
      | error e => exact Or.inr ⟨e, rfl⟩
      | ok t => exact Or.inr ⟨ApiError.attributeError "function search" "llm_backend", rfl⟩
  refine ⟨?_, ?_, ?_⟩
  · intro resp
    rcases hshape with h | ⟨e, h⟩ <;> rw [h] <;> simp
  · intro q tok hq hv
    unfold explain_question_answer
    simp only [hq, hv]
    rfl
  · intro p q2
    rcases hshape with h | ⟨e, h⟩ <;> rw [h] <;> simp

/-- A concrete explain request built on `ragT`. -/
def explainReqT : ExplainQARequest := { rag_request := ragT, explain_threshold := mkRat 1 2 }

/-- C8 witness: on the concrete request (present query, valid token)
the explain endpoint fails with the AttributeError, with no search
call in the trace. -/
theorem C8_explain_endpoint_always_raises_witness :
    explain_question_answer envT explainReqT backendT =
      (Except.error (ApiError.attributeError "function search" "llm_backend"),
       [Effect.validateToken]) :=
  (C8_explain_endpoint_always_raises envT explainReqT backendT).2.1 "sky color" "tok"
    rfl rfl

/-- C4 counterexample: against an empty store the search endpoint does
not return an empty sequence of search results: it returns the
message-shaped JSON response `{"message": "No documents found."}`
(`src/agent/api.py` line 264) instead of the empty list. -/
theorem C4_counterexample_empty_store_message_shape :
    envEmpty.store "openai" = [] ∧
    (search_route envEmpty searchReqT backendT filteringT).1 =
      Except.ok (SearchOut.jsonMessage "No documents found.") ∧
    (search_route envEmpty searchReqT backendT filteringT).1 ≠
      Except.ok (SearchOut.results []) := by
  refine ⟨rfl, rfl, ?_⟩
  intro h
  rw [show (search_route envEmpty searchReqT backendT filteringT).1 =
    Except.ok (SearchOut.jsonMessage "No documents found.") from rfl] at h
  exact absurd (Except.ok.inj h) (by decide)

/-- C4 amended: when the token resolves, an empty search result yields
the message-shaped JSON response (not an empty list); a non-empty
result yields the list of `SearchResponse` carrying each document's
text, page, source and score in backend order; and the backend search
returns at most `top_k` results ordered by descending score. -/
theorem C4_amended_search_response_shape (env : Env) (s : SearchRequest) (b : LLMBackend)
    (f : Filtering) (tok : String)
    (hv : validate_token b.token b.llm_provider env.aleph_alpha_key env.openai_key =
      Except.ok tok) :
    (service_search env (get_strategy b.llm_provider tok b.collection_name) s f = [] →
      (search_route env s b f).1 = Except.ok (SearchOut.jsonMessage "No documents found.")) ∧
    (∀ docs, service_search env (get_strategy b.llm_provider tok b.collection_name) s f = docs →
      docs ≠ [] →
      (search_route env s b f).1 = Except.ok (SearchOut.results (docs.map
        (fun d => { text := d.1.text, page := d.1.page, source := d.1.source, score := d.2 })))) ∧
    (service_search env (get_strategy b.llm_provider tok b.collection_name) s f).length ≤
      s.amount ∧
    (service_search env (get_strategy b.llm_provider tok b.collection_name) s f).Pairwise
      (fun a c => c.2 ≤ a.2) := by
  refine ⟨?_, ?_, ?_, ?_⟩
  · intro h
    unfold search_route
    rw [hv]
    simp [h]
  · intro docs hd hne
    unfold search_route
    rw [hv]
    simp [hd, List.isEmpty_iff, hne]
  · unfold service_search store_search
    simp only [List.length_take]
    exact inf_le_left
  · unfold service_search store_search
    haveI htot : IsTotal (Record × ℚ) (fun a c => c.2 ≤ a.2) := ⟨fun a c => le_total c.2 a.2⟩
    haveI htrans : IsTrans (Record × ℚ) (fun a c => c.2 ≤ a.2) :=
      ⟨fun _a _b _c hab hbc => le_trans hbc hab⟩
    exact (List.sorted_insertionSort _ _).sublist (List.take_sublist _ _)

/-- C4 amended witness: on the populated store the endpoint returns
the three stored records as `SearchResponse`s in descending-score
order, and the result count is bounded by `top_k`. -/
theorem C4_amended_search_response_shape_witness :
    (search_route envT searchReqT backendT filteringT).1 =
      Except.ok (SearchOut.results
        [{ text := "alpha", page := 1, source := "doc.pdf", score := 2 },
         { text := "beta", page := 3, source := "doc.pdf", score := 1 },
         { text := "gamma", page := 3, source := "other.pdf", score := 1 }]) ∧
    (service_search envT (get_strategy backendT.llm_provider "tok" backendT.collection_name)
      searchReqT filteringT).length ≤ searchReqT.amount :=
  ⟨(C4_amended_search_response_shape envT searchReqT backendT filteringT "tok" rfl).2.1
      [(recAlpha, 2), (recBeta, 1), (recGamma, 1)] (by decide) (by decide),
   (C4_amended_search_response_shape envT searchReqT backendT filteringT "tok" rfl).2.2.1⟩

/-- C7: the explain threshold is an inclusive lower bound on the
attribution score: a span scoring exactly the threshold is included in
the explanation spans, every span scoring strictly below it is
excluded, and every included span scores at or above it. -/
theorem C7_explain_threshold_inclusive (env : Env) (q : String) (t : ℚ)
    (docs : List (Record × ℚ)) :
    (∀ d ∈ docs, env.attribution q d.1.text = t →
      (d.1.text, t) ∈ explain_spans env q t docs) ∧
    (∀ s sc, sc < t → (s, sc) ∉ explain_spans env q t docs) ∧
    (∀ sp ∈ explain_spans env q t docs, t ≤ sp.2) := by
  refine ⟨?_, ?_, ?_⟩
  · intro d hd hscore
    unfold explain_spans
    rw [List.mem_filter]
    exact ⟨List.mem_map.mpr ⟨d, hd, by rw [hscore]⟩, by simp⟩
  · intro s sc hlt hmem
    unfold explain_spans at hmem
    rw [List.mem_filter] at hmem
    exact absurd (of_decide_eq_true hmem.2) (not_le.mpr hlt)
  · intro sp hsp
    unfold explain_spans at hsp
    rw [List.mem_filter] at hsp
    exact of_decide_eq_true hsp.2

/-- C7 witness: with threshold 1/2, the span scored exactly 1/2 is
included and the span scored 49/100 is excluded. -/
theorem C7_explain_threshold_inclusive_witness :
    ("alpha", mkRat 1 2) ∈
      explain_spans envT "q" (mkRat 1 2) [(recAlpha, 2), (recBeta, 1)] ∧
    ("beta", mkRat 49 100) ∉
      explain_spans envT "q" (mkRat 1 2) [(recAlpha, 2), (recBeta, 1)] :=
  ⟨(C7_explain_threshold_inclusive envT "q" (mkRat 1 2) [(recAlpha, 2), (recBeta, 1)]).1
      (recAlpha, 2) (by decide) (by decide),
   (C7_explain_threshold_inclusive envT "q" (mkRat 1 2) [(recAlpha, 2), (recBeta, 1)]).2.1
      "beta" (mkRat 49 100) (by decide)⟩

/-- On success the document-saving loop returns exactly the input
files' names. -/
theorem save_files_documents_ok (tmp_ok : Bool) (files : List UploadFile) (ns : List String)
    (h : save_files_documents tmp_ok files = Except.ok ns) :
    ns = files.filterMap (fun f => f.filename) := by
  induction files generalizing ns with
  | nil =>
    unfold save_files_documents at h
    simp only [Except.ok.injEq] at h
    simp [h.symm]
  | cons f fs ih =>
    unfold save_files_documents at h
    by_cases ht : tmp_ok = false
    · rw [if_pos ht] at h; exact absurd h (by simp)
    · rw [if_neg ht] at h
      cases hf : f.filename with
      | none => rw [hf] at h; exact absurd h (by simp)
      | some n =>
        rw [hf] at h
        cases hrec : save_files_documents tmp_ok fs with
        | error e => rw [hrec] at h; exact absurd h (by simp [Except.map])
        | ok ms =>
          rw [hrec] at h
          simp only [Except.map, Except.ok.injEq] at h
          subst h
          simp only [List.filterMap_cons, hf]
          rw [ih ms hrec]

/-- On success the text-file-saving loop returns exactly the input
files' names. -/
theorem save_files_textfiles_ok (tmp_ok : Bool) (files : List UploadFile) (ns : List String)
    (h : save_files_textfiles tmp_ok files = Except.ok ns) :
    ns = files.filterMap (fun f => f.filename) := by
  induction files generalizing ns with
  | nil =>
    unfold save_files_textfiles at h
    simp only [Except.ok.injEq] at h
    simp [h.symm]
  | cons f fs ih =>
    unfold save_files_textfiles at h
    cases hf : f.filename with
    | none => rw [hf] at h; exact absurd h (by simp)
    | some n =>
      simp only [hf] at h
      by_cases ht : tmp_ok = false
      · rw [if_pos ht] at h; exact absurd h (by simp)
      · rw [if_neg ht] at h
        cases hrec : save_files_textfiles tmp_ok fs with
        | error e => rw [hrec] at h; exact absurd h (by simp [Except.map])
        | ok ms =>
          rw [hrec] at h
          simp only [Except.map, Except.ok.injEq] at h
          subst h
          simp only [List.filterMap_cons, hf]
          rw [ih ms hrec]

/-- C10: whenever any of the three embedding endpoints returns a
response at all, that response has status "success" and carries the
input file names; the "failure" status is never produced — every
failure path raises instead. -/
theorem C10_embedding_endpoints_success_only (env : Env) (b : LLMBackend)
    (files : List UploadFile) (et : EmbeddTextRequest) (etf : EmbeddTextFilesRequest) :
    (∀ r, (post_embedd_documents env b files).1 = Except.ok r →
      r.status = Status.SUCCESS ∧ r.status ≠ Status.FAILURE ∧
      r.files = files.filterMap (fun f => f.filename)) ∧
    (∀ r, (embedd_text_route env et b).1 = Except.ok r →
      r.status = Status.SUCCESS ∧ r.status ≠ Status.FAILURE ∧
      r.files = [et.file_name]) ∧
    (∀ r, (embedd_text_files_route env etf b).1 = Except.ok r →
      r.status = Status.SUCCESS ∧ r.status ≠ Status.FAILURE ∧
      r.files = etf.files.filterMap (fun f => f.filename)) := by
  refine ⟨?_, ?_, ?_⟩
  · intro r hr
    unfold post_embedd_documents at hr
    cases hv : validate_token b.token b.llm_provider env.aleph_alpha_key env.openai_key with
    | error e => rw [hv] at hr; exact absurd hr (by simp)
    | ok tok =>
      rw [hv] at hr
      cases hs : save_files_documents env.tmp_dir_ok files with
      | error e => rw [hs] at hr; exact absurd hr (by simp)
      | ok ns =>
        rw [hs] at hr
        simp only [Except.ok.injEq] at hr
        rw [← hr]
        exact ⟨rfl, by simp, save_files_documents_ok _ _ _ hs⟩
  · intro r hr
    unfold embedd_text_route at hr
    cases hv : validate_token b.token b.llm_provider env.aleph_alpha_key env.openai_key with
    | error e => rw [hv] at hr; exact absurd hr (by simp)
    | ok tok =>
      rw [hv] at hr
      simp only [Except.ok.injEq] at hr
      rw [← hr]
      exact ⟨rfl, by simp, rfl⟩
  · intro r hr
    unfold embedd_text_files_route at hr
    cases hs : save_files_textfiles env.tmp_dir_ok etf.files with
    | error e => rw [hs] at hr; exact absurd hr (by simp)
    | ok ns =>
      rw [hs] at hr
      cases hv : validate_token b.token b.llm_provider env.aleph_alpha_key env.openai_key with
      | error e => rw [hv] at hr; exact absurd hr (by simp)
      | ok tok =>
        rw [hv] at hr
        simp only [Except.ok.injEq] at hr
        rw [← hr]
        exact ⟨rfl, by simp, save_files_textfiles_ok _ _ _ hs⟩

/-- A concrete embed-text request. -/
def embedTextReqT : EmbeddTextRequest :=
  { text := "The sky is blue.", file_name := "sky.txt", seperator := "." }

/-- A concrete embed-text-files request. -/
def embedTextFilesReqT : EmbeddTextFilesRequest := { files := filesT, seperator := "." }

/-- C10 witness: all three endpoints, run on concrete successful
inputs, return status "success" with the input file names. -/
theorem C10_embedding_endpoints_success_only_witness :
    (({ status := Status.SUCCESS, files := ["doc.pdf"] } : EmbeddingResponse).status =
        Status.SUCCESS ∧
      ({ status := Status.SUCCESS, files := ["doc.pdf"] } : EmbeddingResponse).status ≠
        Status.FAILURE ∧
      ({ status := Status.SUCCESS, files := ["doc.pdf"] } : EmbeddingResponse).files =
        filesT.filterMap (fun f => f.filename)) ∧
    (({ status := Status.SUCCESS, files := ["sky.txt"] } : EmbeddingResponse).status =
        Status.SUCCESS ∧
      ({ status := Status.SUCCESS, files := ["sky.txt"] } : EmbeddingResponse).status ≠
        Status.FAILURE ∧
      ({ status := Status.SUCCESS, files := ["sky.txt"] } : EmbeddingResponse).files =
        [embedTextReqT.file_name]) ∧
    (({ status := Status.SUCCESS, files := ["doc.pdf"] } : EmbeddingResponse).status =
        Status.SUCCESS ∧
      ({ status := Status.SUCCESS, files := ["doc.pdf"] } : EmbeddingResponse).status ≠
        Status.FAILURE ∧
      ({ status := Status.SUCCESS, files := ["doc.pdf"] } : EmbeddingResponse).files =
        embedTextFilesReqT.files.filterMap (fun f => f.filename)) :=
  ⟨(C10_embedding_endpoints_success_only envT backendT filesT embedTextReqT
      embedTextFilesReqT).1 { status := Status.SUCCESS, files := ["doc.pdf"] } rfl,
   (C10_embedding_endpoints_success_only envT backendT filesT embedTextReqT
      embedTextFilesReqT).2.1 { status := Status.SUCCESS, files := ["sky.txt"] } rfl,
   (C10_embedding_endpoints_success_only envT backendT filesT embedTextReqT
      embedTextFilesReqT).2.2 { status := Status.SUCCESS, files := ["doc.pdf"] } rfl⟩

end Agent
